import Mathlib

/-!
Shallow embedding of the NextGarage IoT parking system (MicroPython sources)
for checking the natural-language specification against the code.

Covered code:
* `src/actuators/servo_gate.py` — the `ServoGate` finite-state machine,
* `src/actuators/traffic_light.py` — the traffic-signal actuator,
* `src/actuators/buzzer.py` — the buzzer actuator,
* `src/actuators/parking_leds.py` — the spot LEDs,
* `src/parking.py` — `SmartParking.check_gas`, `SmartParking.check_parking`
  and `SmartParking._get_filtered_distance`,
* `src/config.py` — the threshold constants those functions read.

Modelling conventions:
* `time.ticks_ms()` values are `Int`; `time.ticks_diff(a, b)` is `a - b`
  (the embedding ignores counter wraparound, which `ticks_diff` exists to
  hide).
* GPIO pin reads (`pin.value()`) are `Nat` inputs supplied per call
  (`0` = detection for the IR sensors and button, `1` = clear).
* Python floats are modelled as `ℚ`; the claims under study depend only on
  comparisons, exact averages and fixed-weight blends, not on rounding.
* The `is_parking_full_cb` callback is an `Option Bool` input: `none` means
  no callback was configured, `some b` means the callback returns `b`.
-/

namespace NextGarage

/-- The three lamps of `TrafficLight` (`traffic_light.py`), one `Bool`
per GPIO output pin. -/
structure TrafficLight where
  red : Bool
  yellow : Bool
  green : Bool
  deriving DecidableEq, Repr

namespace TrafficLight

/-- `TrafficLight.all_off`: switch every lamp off. -/
def all_off (_t : TrafficLight) : TrafficLight :=
  { red := false, yellow := false, green := false }

/-- `TrafficLight.red_on`: `all_off()` then red on (mutual exclusion). -/
def red_on (t : TrafficLight) : TrafficLight :=
  { t.all_off with red := true }

/-- `TrafficLight.green_on`: `all_off()` then green on (mutual exclusion). -/
def green_on (t : TrafficLight) : TrafficLight :=
  { t.all_off with green := true }

/-- `TrafficLight.red_off`. -/
def red_off (t : TrafficLight) : TrafficLight := { t with red := false }

/-- `TrafficLight.green_off`. -/
def green_off (t : TrafficLight) : TrafficLight := { t with green := false }

/-- `TrafficLight.yellow_off`. -/
def yellow_off (t : TrafficLight) : TrafficLight := { t with yellow := false }

/-- `self.traffic_light.yellow.value(not self.traffic_light.yellow.value())`:
the in-line yellow toggle used by `ServoGate.update`. -/
def yellow_toggle (t : TrafficLight) : TrafficLight :=
  { t with yellow := !t.yellow }

end TrafficLight

/-- `ServoGate` state constants (`servo_gate.py`). -/
def STATE_IDLE : Nat := 0
def STATE_GREEN : Nat := 1
def STATE_OPENING : Nat := 2
def STATE_WAIT_CLEAR : Nat := 3
def STATE_CLOSING : Nat := 4
def STATE_MANUAL_OPEN : Nat := 5

/-- `ServoGate` instance constants set in `__init__`. -/
def SERVO_DOWN : Int := 0
def SERVO_UP : Int := 90
def SERVO_STEP : Int := 2
def SERVO_INTERVAL : Int := 30
def SAFE_DELAY : Int := 1000

/-- The mutable state of a `ServoGate` object (`servo_gate.py`).
`duty` records the last `duty_u16` value written to the servo PWM. -/
structure ServoGate where
  state : Nat
  servo_angle : Int
  target_angle : Int
  duty : Int
  last_blink : Int
  last_servo_move : Int
  clear_start : Int
  remote_open_requested : Bool
  remote_close_requested : Bool
  manual_mode : Bool
  is_moving_flag : Bool
  traffic_light : TrafficLight
  deriving DecidableEq, Repr

/-- The sensor values a single `ServoGate.update` call observes:
`pin.value()` of the two IR sensors and the gate button, plus the value of
the `is_parking_full_cb` callback (`none` when no callback is configured). -/
structure GateInputs where
  ir_entrance : Nat
  ir_exit : Nat
  button : Nat
  full : Option Bool
  deriving DecidableEq, Repr

/-- Python truthiness of `self.is_parking_full_cb and self.is_parking_full_cb()`:
true iff a callback is configured and it returns `True`. -/
def lotFull (i : GateInputs) : Bool := i.full.getD false

namespace ServoGate

/-- `ServoGate.set_servo(logic_angle)`: clamp the logical angle to
`[0, 180]`, invert it to a physical angle `90 - logical` (clamped again),
convert to a PWM duty `1700 + physical * 6500 // 180`, write the duty and
store the clamped logical angle. -/
def set_servo (g : ServoGate) (logic_angle : Int) : ServoGate :=
  let la := max 0 (min 180 logic_angle)
  let physical_angle := 90 - la
  let physical_angle := max 0 (min 180 physical_angle)
  let duty := 1700 + (physical_angle * 6500) / 180
  { g with duty := duty, servo_angle := la }

/-- `ServoGate.request_open()`: set the edge-triggered open flag and mark
the opening as manual/remote. -/
def request_open (g : ServoGate) : ServoGate :=
  { g with remote_open_requested := true, manual_mode := true }

/-- `ServoGate.request_close()`: set the edge-triggered close flag. -/
def request_close (g : ServoGate) : ServoGate :=
  { g with remote_close_requested := true }

/-- `ServoGate.is_moving()`. -/
def is_moving (g : ServoGate) : Bool :=
  if g.state = STATE_OPENING ∨ g.state = STATE_CLOSING then
    g.servo_angle ≠ g.target_angle
  else false

/-- The remote-close block of `update`: consume the close flag; close only
from `WAIT_CLEAR`/`MANUAL_OPEN` and only when both IR sensors read `1`. -/
def remoteClose (g : ServoGate) (now : Int) (i : GateInputs) : ServoGate :=
  if g.remote_close_requested then
    let g := { g with remote_close_requested := false }
    if (g.state = STATE_WAIT_CLEAR ∨ g.state = STATE_MANUAL_OPEN)
        ∧ i.ir_entrance = 1 ∧ i.ir_exit = 1 then
      { g with state := STATE_CLOSING, target_angle := SERVO_DOWN,
               manual_mode := false, last_servo_move := now }
    else g
  else g

/-- The `STATE_IDLE` branch of `update`. -/
def stepIdle (g : ServoGate) (now : Int) (i : GateInputs) : ServoGate :=
  let g := { g with traffic_light := g.traffic_light.red_on.yellow_off }
  if i.ir_exit = 0 then
    { g with state := STATE_OPENING, target_angle := SERVO_UP,
             last_servo_move := now, last_blink := now,
             traffic_light := g.traffic_light.red_off, manual_mode := false }
  else if lotFull i then g
  else if i.ir_entrance = 0 then { g with state := STATE_GREEN }
  else g

/-- The `STATE_GREEN` branch of `update`. -/
def stepGreen (g : ServoGate) (now : Int) (i : GateInputs) : ServoGate :=
  if lotFull i then
    { g with traffic_light := g.traffic_light.green_off, state := STATE_IDLE }
  else
    let g := { g with traffic_light := g.traffic_light.green_on }
    if i.ir_exit = 0 then
      { g with state := STATE_OPENING, target_angle := SERVO_UP,
               last_servo_move := now, last_blink := now,
               traffic_light := g.traffic_light.green_off, manual_mode := false }
    else if i.button = 0 then
      { g with state := STATE_OPENING, target_angle := SERVO_UP,
               last_servo_move := now, last_blink := now,
               traffic_light := g.traffic_light.green_off, manual_mode := false }
    else if i.ir_entrance = 1 then { g with state := STATE_IDLE }
    else g

/-- The `STATE_OPENING` branch of `update`: blink yellow every 150 ms,
step the angle up every `SERVO_INTERVAL` ms (clamped at the target), and on
reaching `SERVO_UP` go to `MANUAL_OPEN` (manual) or `WAIT_CLEAR` (auto). -/
def stepOpening (g : ServoGate) (now : Int) : ServoGate :=
  let g :=
    if now - g.last_blink ≥ 150 then
      { g with traffic_light := g.traffic_light.yellow_toggle, last_blink := now }
    else g
  if now - g.last_servo_move ≥ SERVO_INTERVAL then
    let a := g.servo_angle + SERVO_STEP
    let a := if a > g.target_angle then g.target_angle else a
    let g := { g.set_servo a with last_servo_move := now }
    if g.servo_angle ≥ SERVO_UP then
      { g with traffic_light := g.traffic_light.yellow_off,
               state := if g.manual_mode then STATE_MANUAL_OPEN else STATE_WAIT_CLEAR,
               clear_start := 0 }
    else g
  else g

/-- The `STATE_WAIT_CLEAR` branch of `update`: lights off; when both IR
sensors read clear, run the `SAFE_DELAY` dwell and then start closing; any
detection resets the dwell timer to the unset sentinel `0`. -/
def stepWaitClear (g : ServoGate) (now : Int) (i : GateInputs) : ServoGate :=
  let g := { g with traffic_light := g.traffic_light.all_off }
  if i.ir_entrance = 1 ∧ i.ir_exit = 1 then
    let g := if g.clear_start = 0 then { g with clear_start := now } else g
    if now - g.clear_start ≥ SAFE_DELAY then
      { g with state := STATE_CLOSING, target_angle := SERVO_DOWN,
               last_servo_move := now, last_blink := now }
    else g
  else { g with clear_start := 0 }

/-- The `STATE_CLOSING` branch of `update`: blink yellow; if either IR
sensor detects, abort back to `OPENING` with target `SERVO_UP`; otherwise
step the angle down, and on reaching `SERVO_DOWN` go red and `IDLE`. -/
def stepClosing (g : ServoGate) (now : Int) (i : GateInputs) : ServoGate :=
  let g :=
    if now - g.last_blink ≥ 150 then
      { g with traffic_light := g.traffic_light.yellow_toggle, last_blink := now }
    else g
  if i.ir_entrance = 0 ∨ i.ir_exit = 0 then
    { g with state := STATE_OPENING, target_angle := SERVO_UP }
  else if now - g.last_servo_move ≥ SERVO_INTERVAL then
    let a := g.servo_angle - SERVO_STEP
    let a := if a < g.target_angle then g.target_angle else a
    let g := { g.set_servo a with last_servo_move := now }
    if g.servo_angle ≤ SERVO_DOWN then
      { g with traffic_light := g.traffic_light.yellow_off.red_on,
               state := STATE_IDLE }
    else g
  else g

/-- The state-machine dispatch (`if state == ... elif ...`) at the end of
`update`, evaluated on the state left by the remote-command handling. -/
def dispatch (g : ServoGate) (now : Int) (i : GateInputs) : ServoGate :=
  if g.state = STATE_IDLE then stepIdle g now i
  else if g.state = STATE_GREEN then stepGreen g now i
  else if g.state = STATE_OPENING then stepOpening g now
  else if g.state = STATE_WAIT_CLEAR then stepWaitClear g now i
  else if g.state = STATE_CLOSING then stepClosing g now i
  else g

/-- The record written by an accepted remote-open request: consume the
flag, force `OPENING` with target `SERVO_UP`, set manual mode, stamp the
servo timer and switch green and red off; `update` then returns. -/
def forcedOpen (g : ServoGate) (now : Int) : ServoGate :=
  { g with remote_open_requested := false, state := STATE_OPENING,
           target_angle := SERVO_UP, manual_mode := true,
           last_servo_move := now,
           traffic_light := g.traffic_light.green_off.red_off }

/-- `ServoGate.update()`: refresh `is_moving_flag`, consume the remote-open
flag (an accepted open returns at once, skipping everything else, and in
that case the close flag is *not* consumed this call), consume the
remote-close flag, then run the state dispatch. -/
def update (g : ServoGate) (now : Int) (i : GateInputs) : ServoGate :=
  let g := { g with
    is_moving_flag := g.state = STATE_OPENING ∨ g.state = STATE_CLOSING }
  if g.remote_open_requested
      ∧ g.state ≠ STATE_OPENING ∧ g.state ≠ STATE_MANUAL_OPEN then
    forcedOpen g now
  else
    dispatch (remoteClose { g with remote_open_requested := false } now i) now i

/-- `ServoGate.is_open()`. -/
def is_open (g : ServoGate) : Bool :=
  g.state = STATE_OPENING ∨ g.state = STATE_WAIT_CLEAR ∨ g.state = STATE_MANUAL_OPEN

/-- The state a fresh `ServoGate.__init__` leaves behind (all lamp pins low,
angle applied through `set_servo(0)`). -/
def init : ServoGate :=
  set_servo
    { state := STATE_IDLE, servo_angle := SERVO_DOWN, target_angle := SERVO_DOWN,
      duty := 0, last_blink := 0, last_servo_move := 0, clear_start := 0,
      remote_open_requested := false, remote_close_requested := false,
      manual_mode := false, is_moving_flag := false,
      traffic_light := { red := false, yellow := false, green := false } }
    SERVO_DOWN

end ServoGate

/-! ### The parking-spot side: buzzer, LEDs, configuration,
`check_gas`, `_get_filtered_distance`, `check_parking` (`parking.py`). -/

/-- `Buzzer.mode` values (`buzzer.py`). -/
inductive BuzzerMode where
  | off
  | parking
  | alarm
  deriving DecidableEq, Repr

/-- The mutable state of a `Buzzer` object. `freq`/`duty` are the last
PWM settings written. -/
structure Buzzer where
  freq : Int
  duty : Int
  active : Bool
  mode : BuzzerMode
  alarm_freq : Int
  alarm_interval : Int
  alarm_timer : Int
  deriving DecidableEq, Repr

namespace Buzzer

/-- `Buzzer.set_frequency(freq)`: continuous tone, parking mode. -/
def set_frequency (b : Buzzer) (f : Int) : Buzzer :=
  { b with freq := f, duty := 512, mode := .parking, active := true }

/-- `Buzzer.start_alarm(freq, interval)` (reads `ticks_ms` into
`alarm_timer`, passed here as `now`). -/
def start_alarm (b : Buzzer) (now f interval : Int) : Buzzer :=
  { b with alarm_freq := f, alarm_interval := interval, alarm_timer := now,
           mode := .alarm, active := true }

/-- `Buzzer.stop_parking_assist()`: silence only if in parking mode. -/
def stop_parking_assist (b : Buzzer) : Buzzer :=
  if b.mode = .parking then
    { b with duty := 0, active := false, mode := .off }
  else b

/-- `Buzzer.stop_alarm()`: silence only if in alarm mode. -/
def stop_alarm (b : Buzzer) : Buzzer :=
  if b.mode = .alarm then
    { b with duty := 0, active := false, mode := .off }
  else b

end Buzzer

/-- `ParkingLeds` (`parking_leds.py`): red/green spot LEDs. -/
structure ParkingLeds where
  red : Bool
  green : Bool
  deriving DecidableEq, Repr

namespace ParkingLeds

/-- `ParkingLeds.set_occupied()`. -/
def set_occupied (_l : ParkingLeds) : ParkingLeds := { red := true, green := false }

/-- `ParkingLeds.set_free()`. -/
def set_free (_l : ParkingLeds) : ParkingLeds := { red := false, green := true }

end ParkingLeds

/-- The configuration fields of `Config` (`config.py`) read by
`check_parking` and `check_gas`.  `MQ2_THRESHOLD` and `MQ2_HYSTERESIS` are
runtime-mutable through `update_threshold`, so they are carried as data. -/
structure Cfg where
  ULTRASONIC_MIN_DISTANCE : ℚ
  ULTRASONIC_MAX_DISTANCE : ℚ
  ULTRASONIC_OCCUPIED_CONFIRM : Int
  ULTRASONIC_FREE_CONFIRM : Int
  MQ2_THRESHOLD : Int
  MQ2_HYSTERESIS : Int
  deriving DecidableEq, Repr

/-- The default values from `config.py`. -/
def defaultCfg : Cfg :=
  { ULTRASONIC_MIN_DISTANCE := 3, ULTRASONIC_MAX_DISTANCE := 7,
    ULTRASONIC_OCCUPIED_CONFIRM := 3000, ULTRASONIC_FREE_CONFIRM := 2000,
    MQ2_THRESHOLD := 1500, MQ2_HYSTERESIS := 200 }

/-- The slice of `SmartParking` state (`parking.py`) touched by
`check_parking` and `check_gas`. -/
structure ParkState where
  car_parked : Bool
  gas_alarm : Bool
  parking_assist : Bool
  occupied_timer : Int
  free_timer : Int
  last_distance : ℚ
  buzzer : Buzzer
  parking_leds : ParkingLeds
  alarm_led : Bool
  deriving DecidableEq, Repr

namespace ParkState

/-- `SmartParking.check_gas()`: hysteresis alarm over the raw MQ2 reading
(`gas_raw`, an ADC value 0–4095 supplied per call; `now` is the
`ticks_ms` value `start_alarm` records). Enters alarm when
`gas_raw > MQ2_THRESHOLD`; leaves it when
`gas_raw < MQ2_THRESHOLD - MQ2_HYSTERESIS`. -/
def check_gas (s : ParkState) (cfg : Cfg) (now gas_raw : Int) : ParkState :=
  if ¬s.gas_alarm ∧ gas_raw > cfg.MQ2_THRESHOLD then
    { s with gas_alarm := true,
             buzzer := s.buzzer.start_alarm now 2500 300,
             alarm_led := true }
  else if s.gas_alarm ∧ gas_raw < cfg.MQ2_THRESHOLD - cfg.MQ2_HYSTERESIS then
    { s with gas_alarm := false,
             buzzer := s.buzzer.stop_alarm,
             alarm_led := false }
  else s

/-- `SmartParking._get_filtered_distance()`: the burst of exactly 7 raw
ultrasonic reads is supplied as `samples`.  Keep readings strictly inside
`(0.5, 300)`; with none left return `last_distance`; sort, and with at
least 5 left drop the lowest and highest (`readings[1:-1]`); average; blend
`0.7 * avg + 0.3 * last_distance` unless `last_distance` still holds the
first-boot sentinel `999`. -/
def get_filtered_distance (samples : Fin 7 → ℚ) (last_distance : ℚ) : ℚ :=
  let readings := (List.ofFn samples).filter fun d => 0.5 < d ∧ d < 300
  if readings = [] then last_distance
  else
    let readings := List.insertionSort (· ≤ ·) readings
    let readings := if readings.length ≥ 5 then readings.drop 1 |>.dropLast else readings
    let current_avg := readings.sum / (readings.length : ℚ)
    if last_distance = 999 then current_avg
    else current_avg * 0.7 + last_distance * 0.3

/-- `SmartParking.check_parking()` as a function of the filtered distance
the call computes (`distance` is the local variable of the Python code;
`now = time.ticks_ms()`).  While the gas alarm is active the call returns
unchanged at once (safety priority). -/
def check_parking_dist (s : ParkState) (cfg : Cfg) (now : Int) (distance : ℚ) :
    ParkState :=
  if s.gas_alarm then s else
  let s := { s with last_distance := distance }
  if ¬s.car_parked then
    -- spot currently free: stop/confirm zone, approach zone, far zone
    let s := { s with free_timer := 0 }
    let limit := cfg.ULTRASONIC_MIN_DISTANCE +
      (if s.occupied_timer > 0 then 1 else 0)
    if 0 < distance ∧ distance ≤ limit then
      let s := { s with buzzer := s.buzzer.set_frequency 2000 }
      let s := if s.occupied_timer = 0 then { s with occupied_timer := now } else s
      if now - s.occupied_timer ≥ cfg.ULTRASONIC_OCCUPIED_CONFIRM then
        { s with car_parked := true,
                 parking_leds := s.parking_leds.set_occupied,
                 parking_assist := false,
                 buzzer := s.buzzer.stop_parking_assist,
                 occupied_timer := 0 }
      else s
    else if distance ≤ cfg.ULTRASONIC_MAX_DISTANCE then
      let s := { s with parking_assist := true, occupied_timer := 0 }
      if distance < cfg.ULTRASONIC_MAX_DISTANCE / 2 then
        { s with buzzer := s.buzzer.set_frequency 1500 }
      else
        { s with buzzer := s.buzzer.set_frequency 800 }
    else
      { s with parking_assist := false,
               buzzer := s.buzzer.stop_parking_assist,
               occupied_timer := 0 }
  else
    -- spot currently occupied: free-confirmation dwell with margin
    let s := { s with occupied_timer := 0,
                      buzzer := s.buzzer.stop_parking_assist }
    if distance > cfg.ULTRASONIC_MAX_DISTANCE + 2 then
      let s := if s.free_timer = 0 then { s with free_timer := now } else s
      if now - s.free_timer ≥ cfg.ULTRASONIC_FREE_CONFIRM then
        { s with car_parked := false,
                 parking_leds := s.parking_leds.set_free,
                 free_timer := 0 }
      else s
    else
      { s with free_timer := 0 }

/-- `SmartParking.check_parking()` on the raw 7-sample burst: compute the
filtered distance and run the occupancy logic (while the gas alarm is
active the logic returns the state unchanged without touching anything). -/
def check_parking (s : ParkState) (cfg : Cfg) (now : Int)
    (samples : Fin 7 → ℚ) : ParkState :=
  check_parking_dist s cfg now (get_filtered_distance samples s.last_distance)

/-- A sequence of `check_parking` calls driven by per-call timestamps
`t k` and per-call filtered distances `d k`:
`runChecks s t d k` is the state after the first `k` calls. -/
def runChecks (s : ParkState) (cfg : Cfg) (t : Nat → Int) (d : Nat → ℚ) :
    Nat → ParkState
  | 0 => s
  | k + 1 => check_parking_dist (runChecks s cfg t d k) cfg (t k) (d k)

end ParkState

/-- The `SmartParking.__init__` values of the state slice modelled here
(spot free, no alarm, timers unset, `last_distance` seeded with the
sentinel `999`, buzzer silent, spot LEDs showing free). -/
def parkInit : ParkState :=
  { car_parked := false, gas_alarm := false, parking_assist := false,
    occupied_timer := 0, free_timer := 0, last_distance := 999,
    buzzer := { freq := 0, duty := 0, active := false, mode := .off,
                alarm_freq := 0, alarm_interval := 0, alarm_timer := 0 },
    parking_leds := { red := false, green := true }, alarm_led := false }

/-! ### Concrete fixtures used by witnesses and counterexamples -/

/-- A gate in `WaitClear`, fully open, with the clear dwell running. -/
def gateWaitClear : ServoGate :=
  { ServoGate.init with
      state := STATE_WAIT_CLEAR, servo_angle := 90, target_angle := 90,
      clear_start := 500 }

/-- A gate halfway through closing. -/
def gateClosing : ServoGate :=
  { ServoGate.init with
      state := STATE_CLOSING, servo_angle := 44, target_angle := 0 }

/-- A gate in `Green` waiting for the button. -/
def gateGreen : ServoGate :=
  { ServoGate.init with state := STATE_GREEN }

/-- An idle gate with both remote request flags pending. -/
def gateBoth : ServoGate :=
  { ServoGate.init with
      remote_open_requested := true, remote_close_requested := true }

/-- A gate two steps short of fully open during an automatic opening. -/
def gateOpening : ServoGate :=
  { ServoGate.init with
      state := STATE_OPENING, servo_angle := 88, target_angle := 90 }

/-- Inputs: everything clear, lot not full. -/
def inpClear : GateInputs :=
  { ir_entrance := 1, ir_exit := 1, button := 1, full := some false }

/-- Inputs: entrance detecting, lot not full. -/
def inpEnt : GateInputs :=
  { ir_entrance := 0, ir_exit := 1, button := 1, full := some false }

/-- Inputs: entrance detecting, lot full. -/
def inpEntFull : GateInputs :=
  { ir_entrance := 0, ir_exit := 1, button := 1, full := some true }

/-- Inputs: exit detecting, lot not full. -/
def inpExit : GateInputs :=
  { ir_entrance := 1, ir_exit := 0, button := 1, full := some false }

/-- Inputs: exit detecting, lot full. -/
def inpExitFull : GateInputs :=
  { ir_entrance := 1, ir_exit := 0, button := 1, full := some true }

/-- A parking state with the spot confirmed occupied. -/
def parkOccupied : ParkState :=
  { parkInit with car_parked := true, last_distance := 5 }

/-- Timestamps of a two-call trace: `5` ms then `2005` ms. -/
def traceT : Nat → Int := fun k => if k = 0 then 5 else 2005

/-- Filtered distances of that trace: always `20` cm (beyond `7 + 2`). -/
def traceD : Nat → ℚ := fun _ => 20

/-- A 7-sample ultrasonic burst with two implausible readings (`0.1` cm and
`400` cm) that the filter must discard. -/
def burst : Fin 7 → ℚ := ![10, 1/10, 12, 11, 400, 13, 14]

/-- The in-range survivors of `burst`, in burst order. -/
def burstSurv : List ℚ := [10, 12, 11, 13, 14]

end NextGarage

namespace NextGarage

/-! ## Claims -/

/-- **C3.** `check_gas` with configured threshold `T` and hysteresis `H`:
from an inactive alarm the call activates it exactly when `raw > T`; from
an active alarm the call deactivates it exactly when `raw < T - H`; and for
any raw reading in the band `[T - H, T]` the alarm state is unchanged. -/
theorem claim_C3_check_gas_hysteresis (s : ParkState) (cfg : Cfg) (now raw : Int) :
    (s.gas_alarm = false →
      ((s.check_gas cfg now raw).gas_alarm = true ↔ raw > cfg.MQ2_THRESHOLD)) ∧
    (s.gas_alarm = true →
      ((s.check_gas cfg now raw).gas_alarm = false ↔
        raw < cfg.MQ2_THRESHOLD - cfg.MQ2_HYSTERESIS)) ∧
    (cfg.MQ2_THRESHOLD - cfg.MQ2_HYSTERESIS ≤ raw ∧ raw ≤ cfg.MQ2_THRESHOLD →
      (s.check_gas cfg now raw).gas_alarm = s.gas_alarm) := by
  unfold ParkState.check_gas
  split_ifs with h1 h2 <;> simp_all
  omega

/-- Witness for C3 at the default configuration: a raw reading of `1600`
trips the inactive alarm (`1600 > 1500`), and a reading of `1400` inside
the band `[1300, 1500]` leaves the freshly tripped alarm unchanged. -/
theorem claim_C3_witness :
    (parkInit.gas_alarm = false ∧
      ((parkInit.check_gas defaultCfg 0 1600).gas_alarm = true ↔
        (1600 : Int) > defaultCfg.MQ2_THRESHOLD)) ∧
    ((parkInit.check_gas defaultCfg 0 1600).gas_alarm = true ∧
      (((parkInit.check_gas defaultCfg 0 1600).check_gas defaultCfg 5 1400).gas_alarm =
        (parkInit.check_gas defaultCfg 0 1600).gas_alarm)) :=
  ⟨⟨by decide,
    (claim_C3_check_gas_hysteresis parkInit defaultCfg 0 1600).1 (by decide)⟩,
   ⟨by decide,
    (claim_C3_check_gas_hysteresis (parkInit.check_gas defaultCfg 0 1600)
      defaultCfg 5 1400).2.2 (by decide)⟩⟩

/-- **C9.** `set_servo` is idempotent for logical angles in `[0, 180]`:
repeating the call leaves the entire controller state exactly as after the
first call, the stored logical angle is the (unclamped, in-range) input,
and the written PWM duty is `1700 + physical * 6500 / 180` where
`physical` is `90 - a` clamped to `[0, 180]`. -/
theorem claim_C9_set_servo_idempotent (g : ServoGate) (a : Int)
    (h0 : 0 ≤ a) (h180 : a ≤ 180) :
    (g.set_servo a).set_servo a = g.set_servo a ∧
    (g.set_servo a).servo_angle = a ∧
    (g.set_servo a).duty = 1700 + (max 0 (min 180 (90 - a)) * 6500) / 180 := by
  refine ⟨rfl, ?_, ?_⟩ <;>
  · simp only [ServoGate.set_servo, max_def, min_def]
    split_ifs <;> omega

/-- Witness for C9 at `a = 135` on the freshly initialised gate. -/
theorem claim_C9_witness :
    ((0 : Int) ≤ 135 ∧ (135 : Int) ≤ 180) ∧
    ((ServoGate.init.set_servo 135).set_servo 135 = ServoGate.init.set_servo 135 ∧
      (ServoGate.init.set_servo 135).servo_angle = 135 ∧
      (ServoGate.init.set_servo 135).duty =
        1700 + (max 0 (min 180 (90 - 135)) * 6500) / 180) :=
  ⟨by decide,
   claim_C9_set_servo_idempotent ServoGate.init 135 (by decide) (by decide)⟩

/-! ### Case lemmas for `ServoGate.update` -/

namespace ServoGate

/-- An `update` call with the open flag set and a state other than
`Opening`/`ManualOpen` accepts the remote open and returns at once. -/
theorem update_accepted (g : ServoGate) (now : Int) (i : GateInputs)
    (ho : g.remote_open_requested = true) (h2 : g.state ≠ STATE_OPENING)
    (h5 : g.state ≠ STATE_MANUAL_OPEN) :
    g.update now i =
      forcedOpen
        { g with is_moving_flag :=
            decide (g.state = STATE_OPENING ∨ g.state = STATE_CLOSING) } now := by
  simp only [update]
  rw [if_pos ⟨ho, h2, h5⟩]

/-- An `update` call that does not accept a remote open, with a pending
close request honoured from `WaitClear`/`ManualOpen` and both sensors
clear, starts closing and then runs the dispatch on the new state. -/
theorem update_close_honoured (g : ServoGate) (now : Int) (i : GateInputs)
    (hacc : ¬(g.remote_open_requested = true ∧ g.state ≠ STATE_OPENING ∧
        g.state ≠ STATE_MANUAL_OPEN))
    (hrc : g.remote_close_requested = true)
    (hcond : (g.state = STATE_WAIT_CLEAR ∨ g.state = STATE_MANUAL_OPEN)
        ∧ i.ir_entrance = 1 ∧ i.ir_exit = 1) :
    g.update now i =
      dispatch
        { g with
            is_moving_flag :=
              decide (g.state = STATE_OPENING ∨ g.state = STATE_CLOSING),
            remote_open_requested := false, remote_close_requested := false,
            state := STATE_CLOSING, target_angle := SERVO_DOWN,
            manual_mode := false, last_servo_move := now } now i := by
  simp only [update, remoteClose]
  rw [if_neg hacc, if_pos hrc, if_pos hcond]

/-- An `update` call that does not accept a remote open and whose pending
close request is not honoured only consumes the close flag. -/
theorem update_close_dropped (g : ServoGate) (now : Int) (i : GateInputs)
    (hacc : ¬(g.remote_open_requested = true ∧ g.state ≠ STATE_OPENING ∧
        g.state ≠ STATE_MANUAL_OPEN))
    (hrc : g.remote_close_requested = true)
    (hcond : ¬((g.state = STATE_WAIT_CLEAR ∨ g.state = STATE_MANUAL_OPEN)
        ∧ i.ir_entrance = 1 ∧ i.ir_exit = 1)) :
    g.update now i =
      dispatch
        { g with
            is_moving_flag :=
              decide (g.state = STATE_OPENING ∨ g.state = STATE_CLOSING),
            remote_open_requested := false,
            remote_close_requested := false } now i := by
  simp only [update, remoteClose]
  rw [if_neg hacc, if_pos hrc, if_neg hcond]

/-- An `update` call that does not accept a remote open and has no pending
close request goes straight to the dispatch. -/
theorem update_no_close (g : ServoGate) (now : Int) (i : GateInputs)
    (hacc : ¬(g.remote_open_requested = true ∧ g.state ≠ STATE_OPENING ∧
        g.state ≠ STATE_MANUAL_OPEN))
    (hrc : g.remote_close_requested = false) :
    g.update now i =
      dispatch
        { g with
            is_moving_flag :=
              decide (g.state = STATE_OPENING ∨ g.state = STATE_CLOSING),
            remote_open_requested := false } now i := by
  simp only [update, remoteClose]
  rw [if_neg hacc,
    if_neg (show ¬g.remote_close_requested = true by simp [hrc])]

/-- The dispatch lemmas: which branch of the `if/elif` chain runs. -/
theorem dispatch_idle (g : ServoGate) (now : Int) (i : GateInputs)
    (h : g.state = STATE_IDLE) : dispatch g now i = stepIdle g now i := by
  simp [dispatch, h]

theorem dispatch_green (g : ServoGate) (now : Int) (i : GateInputs)
    (h : g.state = STATE_GREEN) : dispatch g now i = stepGreen g now i := by
  simp [dispatch, h, STATE_IDLE, STATE_GREEN]

theorem dispatch_opening (g : ServoGate) (now : Int) (i : GateInputs)
    (h : g.state = STATE_OPENING) : dispatch g now i = stepOpening g now := by
  simp [dispatch, h, STATE_IDLE, STATE_GREEN, STATE_OPENING]

theorem dispatch_waitclear (g : ServoGate) (now : Int) (i : GateInputs)
    (h : g.state = STATE_WAIT_CLEAR) : dispatch g now i = stepWaitClear g now i := by
  simp [dispatch, h, STATE_IDLE, STATE_GREEN, STATE_OPENING, STATE_WAIT_CLEAR]

theorem dispatch_closing (g : ServoGate) (now : Int) (i : GateInputs)
    (h : g.state = STATE_CLOSING) : dispatch g now i = stepClosing g now i := by
  simp [dispatch, h, STATE_IDLE, STATE_GREEN, STATE_OPENING, STATE_WAIT_CLEAR,
    STATE_CLOSING]

theorem dispatch_other (g : ServoGate) (now : Int) (i : GateInputs)
    (h0 : g.state ≠ STATE_IDLE) (h1 : g.state ≠ STATE_GREEN)
    (h2 : g.state ≠ STATE_OPENING) (h3 : g.state ≠ STATE_WAIT_CLEAR)
    (h4 : g.state ≠ STATE_CLOSING) : dispatch g now i = g := by
  simp [dispatch, h0, h1, h2, h3, h4]

/-- `stepIdle` can only leave the state where it was or move it to
`Opening` or `Green`; in particular it never enters `Closing` on its own. -/
theorem stepIdle_not_closing (g : ServoGate) (now : Int) (i : GateInputs)
    (h : (stepIdle g now i).state = STATE_CLOSING) : g.state = STATE_CLOSING := by
  revert h
  unfold stepIdle
  split_ifs <;>
    simp_all [STATE_GREEN, STATE_OPENING, STATE_CLOSING]

/-- `stepGreen` never enters `Closing` on its own. -/
theorem stepGreen_not_closing (g : ServoGate) (now : Int) (i : GateInputs)
    (h : (stepGreen g now i).state = STATE_CLOSING) : g.state = STATE_CLOSING := by
  revert h
  unfold stepGreen
  split_ifs <;>
    simp_all [STATE_IDLE, STATE_GREEN, STATE_OPENING, STATE_CLOSING]

/-- `stepOpening` never enters `Closing` on its own. -/
theorem stepOpening_not_closing (g : ServoGate) (now : Int)
    (h : (stepOpening g now).state = STATE_CLOSING) : g.state = STATE_CLOSING := by
  revert h
  simp only [stepOpening, set_servo]
  split_ifs <;>
    simp_all [STATE_WAIT_CLEAR, STATE_CLOSING, STATE_MANUAL_OPEN]

/-- `stepWaitClear` enters `Closing` only when both sensors read clear. -/
theorem stepWaitClear_closing (g : ServoGate) (now : Int) (i : GateInputs)
    (h : (stepWaitClear g now i).state = STATE_CLOSING) :
    g.state = STATE_CLOSING ∨ (i.ir_entrance = 1 ∧ i.ir_exit = 1) := by
  by_cases hs : i.ir_entrance = 1 ∧ i.ir_exit = 1
  · exact Or.inr hs
  · left
    revert h
    simp [stepWaitClear, hs]

/-- `stepClosing` with either sensor detecting aborts straight back to
`Opening` with target fully open. -/
theorem stepClosing_abort (g : ServoGate) (now : Int) (i : GateInputs)
    (hs : i.ir_entrance = 0 ∨ i.ir_exit = 0) :
    (stepClosing g now i).state = STATE_OPENING ∧
    (stepClosing g now i).target_angle = SERVO_UP := by
  unfold stepClosing
  rcases hs with h | h <;> split_ifs <;> simp_all

/-- `stepIdle` with the exit sensor clear and the lot full does nothing
but reassert the red lamp. -/
theorem stepIdle_stay_full (g : ServoGate) (now : Int) (i : GateInputs)
    (hexit : ¬i.ir_exit = 0) (hfull : lotFull i = true) :
    stepIdle g now i =
      { g with traffic_light := g.traffic_light.red_on.yellow_off } := by
  simp [stepIdle, hexit, hfull]

/-- `stepIdle` with the exit sensor detecting starts an automatic opening. -/
theorem stepIdle_exit (g : ServoGate) (now : Int) (i : GateInputs)
    (hexit : i.ir_exit = 0) :
    (stepIdle g now i).state = STATE_OPENING ∧
    (stepIdle g now i).target_angle = SERVO_UP := by
  simp [stepIdle, hexit]

/-- `stepGreen` with the lot not full and the exit sensor detecting starts
an automatic opening. -/
theorem stepGreen_exit (g : ServoGate) (now : Int) (i : GateInputs)
    (hfull : lotFull i = false) (hexit : i.ir_exit = 0) :
    (stepGreen g now i).state = STATE_OPENING ∧
    (stepGreen g now i).target_angle = SERVO_UP := by
  simp [stepGreen, hfull, hexit]

/-- If the state dispatch enters `Closing` from any other state, the only
door is `stepWaitClear`, which demands both sensors clear. -/
theorem dispatch_enters_closing (g : ServoGate) (now : Int) (i : GateInputs)
    (h : g.state ≠ STATE_CLOSING)
    (ha : (dispatch g now i).state = STATE_CLOSING) :
    i.ir_entrance = 1 ∧ i.ir_exit = 1 := by
  by_cases h0 : g.state = STATE_IDLE
  · rw [dispatch_idle g now i h0] at ha
    exact absurd (stepIdle_not_closing g now i ha) h
  by_cases h1 : g.state = STATE_GREEN
  · rw [dispatch_green g now i h1] at ha
    exact absurd (stepGreen_not_closing g now i ha) h
  by_cases h2 : g.state = STATE_OPENING
  · rw [dispatch_opening g now i h2] at ha
    exact absurd (stepOpening_not_closing g now ha) h
  by_cases h3 : g.state = STATE_WAIT_CLEAR
  · rw [dispatch_waitclear g now i h3] at ha
    rcases stepWaitClear_closing g now i ha with hc | hs
    · exact absurd hc h
    · exact hs
  · rw [dispatch_other g now i h0 h1 h2 h3 h] at ha
    exact absurd ha h

end ServoGate

/-- **C1.** Whenever a single `update` call moves the gate into `Closing`
from any other state, both presence sensors read clear (`1`) during that
call: the gate never enters `Closing` while either sensor reports
detection. -/
theorem claim_C1_closing_needs_clear_sensors (g : ServoGate) (now : Int)
    (i : GateInputs) (hafter : (g.update now i).state = STATE_CLOSING)
    (hbefore : g.state ≠ STATE_CLOSING) :
    i.ir_entrance = 1 ∧ i.ir_exit = 1 := by
  by_cases hacc : g.remote_open_requested = true ∧ g.state ≠ STATE_OPENING ∧
      g.state ≠ STATE_MANUAL_OPEN
  · rw [ServoGate.update_accepted g now i hacc.1 hacc.2.1 hacc.2.2] at hafter
    simp [ServoGate.forcedOpen, STATE_OPENING, STATE_CLOSING] at hafter
  · by_cases hrc : g.remote_close_requested = true
    · by_cases hcc : (g.state = STATE_WAIT_CLEAR ∨ g.state = STATE_MANUAL_OPEN)
          ∧ i.ir_entrance = 1 ∧ i.ir_exit = 1
      · exact ⟨hcc.2.1, hcc.2.2⟩
      · rw [ServoGate.update_close_dropped g now i hacc hrc hcc] at hafter
        exact ServoGate.dispatch_enters_closing _ now i (by exact hbefore) hafter
    · rw [ServoGate.update_no_close g now i hacc (by simpa using hrc)] at hafter
      exact ServoGate.dispatch_enters_closing _ now i (by exact hbefore) hafter

/-- Witness for C1: from `WaitClear` with the safety dwell already elapsed
(`clear_start = 500`, `now = 2000`) and both sensors clear, the call ends
in `Closing`, and the theorem reports both sensors clear. -/
theorem claim_C1_witness :
    ((gateWaitClear.update 2000 inpClear).state = STATE_CLOSING ∧
      gateWaitClear.state ≠ STATE_CLOSING) ∧
    (inpClear.ir_entrance = 1 ∧ inpClear.ir_exit = 1) :=
  ⟨⟨by decide, by decide⟩,
   claim_C1_closing_needs_clear_sensors gateWaitClear 2000 inpClear
     (by decide) (by decide)⟩

/-- **C2.** Any `update` call that starts in `Closing` while either sensor
reports detection (`0`) ends, in that same call, in `Opening` with target
`SERVO_UP` (fully open) — with no detour through `Idle` or `WaitClear`. -/
theorem claim_C2_closing_abort_reopens (g : ServoGate) (now : Int)
    (i : GateInputs) (hstate : g.state = STATE_CLOSING)
    (hsens : i.ir_entrance = 0 ∨ i.ir_exit = 0) :
    (g.update now i).state = STATE_OPENING ∧
    (g.update now i).target_angle = SERVO_UP := by
  by_cases hacc : g.remote_open_requested = true ∧ g.state ≠ STATE_OPENING ∧
      g.state ≠ STATE_MANUAL_OPEN
  · rw [ServoGate.update_accepted g now i hacc.1 hacc.2.1 hacc.2.2]
    exact ⟨rfl, rfl⟩
  · have hcc : ¬((g.state = STATE_WAIT_CLEAR ∨ g.state = STATE_MANUAL_OPEN)
        ∧ i.ir_entrance = 1 ∧ i.ir_exit = 1) := by
      simp [hstate, STATE_WAIT_CLEAR, STATE_MANUAL_OPEN, STATE_CLOSING]
    by_cases hrc : g.remote_close_requested = true
    · rw [ServoGate.update_close_dropped g now i hacc hrc hcc]
      rcases hsens with h | h <;>
        simp [ServoGate.dispatch, ServoGate.stepClosing, hstate, h,
          STATE_IDLE, STATE_GREEN, STATE_OPENING, STATE_WAIT_CLEAR,
          STATE_CLOSING]
    · rw [ServoGate.update_no_close g now i hacc (by simpa using hrc)]
      rcases hsens with h | h <;>
        simp [ServoGate.dispatch, ServoGate.stepClosing, hstate, h,
          STATE_IDLE, STATE_GREEN, STATE_OPENING, STATE_WAIT_CLEAR,
          STATE_CLOSING]

/-- Witness for C2: mid-close (`angle 44`, target `0`) with the entrance
sensor detecting, the call yields `Opening` with target `90`. -/
theorem claim_C2_witness :
    (gateClosing.state = STATE_CLOSING ∧
      (inpEnt.ir_entrance = 0 ∨ inpEnt.ir_exit = 0)) ∧
    ((gateClosing.update 100 inpEnt).state = STATE_OPENING ∧
      (gateClosing.update 100 inpEnt).target_angle = SERVO_UP) :=
  ⟨⟨by decide, Or.inl (by decide)⟩,
   claim_C2_closing_abort_reopens gateClosing 100 inpEnt
     (by decide) (Or.inl (by decide))⟩

/-- **C5.** From `Idle` with the lot full, the entrance sensor detecting,
the exit sensor clear and no pending remote request, the call leaves the
gate in `Idle` — it never moves to `Green` while the lot is full. -/
theorem claim_C5_idle_full_ignores_entrance (g : ServoGate) (now : Int)
    (i : GateInputs) (hstate : g.state = STATE_IDLE)
    (hfull : lotFull i = true) (_hent : i.ir_entrance = 0)
    (hexit : i.ir_exit = 1) (hro : g.remote_open_requested = false)
    (hrc : g.remote_close_requested = false) :
    (g.update now i).state = STATE_IDLE ∧
    (g.update now i).state ≠ STATE_GREEN := by
  have hacc : ¬(g.remote_open_requested = true ∧ g.state ≠ STATE_OPENING ∧
      g.state ≠ STATE_MANUAL_OPEN) := by simp [hro]
  rw [ServoGate.update_no_close g now i hacc hrc]
  simp [ServoGate.dispatch, ServoGate.stepIdle, hstate, hexit, hfull,
    STATE_IDLE, STATE_GREEN]

/-- Witness for C5: the freshly initialised gate (`Idle`), lot full,
entrance detecting, exit clear, no remote requests; the call stays `Idle`. -/
theorem claim_C5_witness :
    (ServoGate.init.state = STATE_IDLE ∧ lotFull inpEntFull = true ∧
      inpEntFull.ir_entrance = 0 ∧ inpEntFull.ir_exit = 1 ∧
      ServoGate.init.remote_open_requested = false ∧
      ServoGate.init.remote_close_requested = false) ∧
    ((ServoGate.init.update 42 inpEntFull).state = STATE_IDLE ∧
      (ServoGate.init.update 42 inpEntFull).state ≠ STATE_GREEN) :=
  ⟨⟨by decide, by decide, by decide, by decide, by decide, by decide⟩,
   claim_C5_idle_full_ignores_entrance ServoGate.init 42 inpEntFull
     (by decide) (by decide) (by decide) (by decide) (by decide) (by decide)⟩

namespace ServoGate

/-- None of the state-machine branches touches the remote request flags. -/
theorem stepIdle_flags (g : ServoGate) (now : Int) (i : GateInputs) :
    (stepIdle g now i).remote_open_requested = g.remote_open_requested ∧
    (stepIdle g now i).remote_close_requested = g.remote_close_requested := by
  unfold stepIdle
  split_ifs <;> simp

theorem stepGreen_flags (g : ServoGate) (now : Int) (i : GateInputs) :
    (stepGreen g now i).remote_open_requested = g.remote_open_requested ∧
    (stepGreen g now i).remote_close_requested = g.remote_close_requested := by
  unfold stepGreen
  split_ifs <;> simp

theorem stepOpening_flags (g : ServoGate) (now : Int) :
    (stepOpening g now).remote_open_requested = g.remote_open_requested ∧
    (stepOpening g now).remote_close_requested = g.remote_close_requested ∧
    (stepOpening g now).manual_mode = g.manual_mode := by
  simp only [stepOpening, set_servo]
  split_ifs <;> simp

theorem stepWaitClear_flags (g : ServoGate) (now : Int) (i : GateInputs) :
    (stepWaitClear g now i).remote_open_requested = g.remote_open_requested ∧
    (stepWaitClear g now i).remote_close_requested = g.remote_close_requested := by
  by_cases hs : i.ir_entrance = 1 ∧ i.ir_exit = 1 <;>
    by_cases hcs : g.clear_start = 0 <;>
      simp only [stepWaitClear, hs, hcs] <;> split_ifs <;> simp

theorem stepClosing_flags (g : ServoGate) (now : Int) (i : GateInputs) :
    (stepClosing g now i).remote_open_requested = g.remote_open_requested ∧
    (stepClosing g now i).remote_close_requested = g.remote_close_requested := by
  simp only [stepClosing, set_servo]
  split_ifs <;> simp

/-- The state dispatch never touches the remote request flags. -/
theorem dispatch_flags (g : ServoGate) (now : Int) (i : GateInputs) :
    (dispatch g now i).remote_open_requested = g.remote_open_requested ∧
    (dispatch g now i).remote_close_requested = g.remote_close_requested := by
  unfold dispatch
  split_ifs
  · exact stepIdle_flags g now i
  · exact stepGreen_flags g now i
  · exact ⟨(stepOpening_flags g now).1, (stepOpening_flags g now).2.1⟩
  · exact stepWaitClear_flags g now i
  · exact stepClosing_flags g now i
  · exact ⟨rfl, rfl⟩

/-- After every `update` call the open flag is clear: it is either consumed
by the remote-command handling or was never set, and no state branch sets
it. -/
theorem update_ro_false (g : ServoGate) (now : Int) (i : GateInputs) :
    (g.update now i).remote_open_requested = false := by
  by_cases hacc : g.remote_open_requested = true ∧ g.state ≠ STATE_OPENING ∧
      g.state ≠ STATE_MANUAL_OPEN
  · rw [update_accepted g now i hacc.1 hacc.2.1 hacc.2.2]
    rfl
  · by_cases hrc : g.remote_close_requested = true
    · by_cases hcc : (g.state = STATE_WAIT_CLEAR ∨ g.state = STATE_MANUAL_OPEN)
          ∧ i.ir_entrance = 1 ∧ i.ir_exit = 1
      · rw [update_close_honoured g now i hacc hrc hcc]
        exact (dispatch_flags _ now i).1
      · rw [update_close_dropped g now i hacc hrc hcc]
        exact (dispatch_flags _ now i).1
    · rw [update_no_close g now i hacc (by simpa using hrc)]
      exact (dispatch_flags _ now i).1

/-- When the call does not accept a remote open, the close flag is always
consumed and clear afterwards. -/
theorem update_rc_false (g : ServoGate) (now : Int) (i : GateInputs)
    (hacc : ¬(g.remote_open_requested = true ∧ g.state ≠ STATE_OPENING ∧
        g.state ≠ STATE_MANUAL_OPEN)) :
    (g.update now i).remote_close_requested = false := by
  by_cases hrc : g.remote_close_requested = true
  · by_cases hcc : (g.state = STATE_WAIT_CLEAR ∨ g.state = STATE_MANUAL_OPEN)
        ∧ i.ir_entrance = 1 ∧ i.ir_exit = 1
    · rw [update_close_honoured g now i hacc hrc hcc]
      exact (dispatch_flags _ now i).2
    · rw [update_close_dropped g now i hacc hrc hcc]
      exact (dispatch_flags _ now i).2
  · rw [update_no_close g now i hacc (by simpa using hrc)]
    rw [(dispatch_flags _ now i).2]
    simpa using hrc

/-- `stepOpening` either keeps the state or moves to the completion state
(`ManualOpen` when manual, `WaitClear` otherwise). -/
theorem stepOpening_states (g : ServoGate) (now : Int) :
    (stepOpening g now).state = g.state ∨
    (stepOpening g now).state =
      (if g.manual_mode = true then STATE_MANUAL_OPEN else STATE_WAIT_CLEAR) := by
  simp only [stepOpening, set_servo]
  split_ifs <;> simp_all

/-- If the servo stepped this call and the stored angle reached `SERVO_UP`,
`stepOpening` moved to the completion state. -/
theorem stepOpening_reach (g : ServoGate) (now : Int)
    (hint : now - g.last_servo_move ≥ SERVO_INTERVAL)
    (hup : (stepOpening g now).servo_angle ≥ SERVO_UP) :
    (stepOpening g now).state =
      (if g.manual_mode = true then STATE_MANUAL_OPEN else STATE_WAIT_CLEAR) := by
  revert hup
  simp only [stepOpening, set_servo]
  split_ifs <;> simp_all

end ServoGate

/-- Counterexample to **C4** as stated: from `Green` with the lot full and
the exit sensor detecting, the same call reverts to `Idle` — the `Green`
branch checks the lot-full query *before* the exit sensor — so the state
after the call is not `Opening`. -/
theorem claim_C4_counterexample :
    gateGreen.state = STATE_GREEN ∧ lotFull inpExitFull = true ∧
    inpExitFull.ir_exit = 0 ∧
    (gateGreen.update 3 inpExitFull).state = STATE_IDLE ∧
    ¬((gateGreen.update 3 inpExitFull).state = STATE_OPENING ∧
      (gateGreen.update 3 inpExitFull).target_angle = SERVO_UP) := by
  decide

/-- **C4 (amended).** An `update` call starting in `Idle` with the exit
sensor detecting ends in `Opening` with target fully open regardless of the
lot-full query; the same holds from `Green` provided the lot-full query
returns false (with the lot full, the `Green` branch reverts to `Idle`
before looking at the exit sensor). -/
theorem claim_C4_exit_opens (g : ServoGate) (now : Int) (i : GateInputs)
    (h : g.state = STATE_IDLE ∨ (g.state = STATE_GREEN ∧ lotFull i = false))
    (hexit : i.ir_exit = 0) :
    (g.update now i).state = STATE_OPENING ∧
    (g.update now i).target_angle = SERVO_UP := by
  by_cases hacc : g.remote_open_requested = true ∧ g.state ≠ STATE_OPENING ∧
      g.state ≠ STATE_MANUAL_OPEN
  · rw [ServoGate.update_accepted g now i hacc.1 hacc.2.1 hacc.2.2]
    exact ⟨rfl, rfl⟩
  · have hcc : ¬((g.state = STATE_WAIT_CLEAR ∨ g.state = STATE_MANUAL_OPEN)
        ∧ i.ir_entrance = 1 ∧ i.ir_exit = 1) := by simp [hexit]
    by_cases hrc : g.remote_close_requested = true
    · rw [ServoGate.update_close_dropped g now i hacc hrc hcc]
      rcases h with hs | ⟨hs, hf⟩
      · simp [ServoGate.dispatch, ServoGate.stepIdle, hs, hexit,
          STATE_IDLE, STATE_GREEN, STATE_OPENING, STATE_WAIT_CLEAR,
          STATE_CLOSING]
      · simp [ServoGate.dispatch, ServoGate.stepGreen, hs, hf, hexit,
          STATE_IDLE, STATE_GREEN, STATE_OPENING, STATE_WAIT_CLEAR,
          STATE_CLOSING]
    · rw [ServoGate.update_no_close g now i hacc (by simpa using hrc)]
      rcases h with hs | ⟨hs, hf⟩
      · simp [ServoGate.dispatch, ServoGate.stepIdle, hs, hexit,
          STATE_IDLE, STATE_GREEN, STATE_OPENING, STATE_WAIT_CLEAR,
          STATE_CLOSING]
      · simp [ServoGate.dispatch, ServoGate.stepGreen, hs, hf, hexit,
          STATE_IDLE, STATE_GREEN, STATE_OPENING, STATE_WAIT_CLEAR,
          STATE_CLOSING]

/-- Witness for the amended C4: from `Idle` with the lot full and the exit
sensor detecting, one call opens the gate fully. -/
theorem claim_C4_witness :
    ((ServoGate.init.state = STATE_IDLE ∨
        (ServoGate.init.state = STATE_GREEN ∧ lotFull inpExitFull = false)) ∧
      inpExitFull.ir_exit = 0) ∧
    ((ServoGate.init.update 3 inpExitFull).state = STATE_OPENING ∧
      (ServoGate.init.update 3 inpExitFull).target_angle = SERVO_UP) :=
  ⟨⟨Or.inl (by decide), by decide⟩,
   claim_C4_exit_opens ServoGate.init 3 inpExitFull (Or.inl (by decide))
     (by decide)⟩

/-- Counterexample to **C6** as stated: with both request flags pending in
`Idle`, the accepted open request returns immediately and the close flag is
*not* consumed during that call — it is still set afterwards. -/
theorem claim_C6_counterexample :
    gateBoth.remote_open_requested = true ∧
    gateBoth.remote_close_requested = true ∧
    (gateBoth.update 0 inpClear).remote_close_requested = true := by
  decide

/-- **C6 (amended).** Every `update` call clears the open flag; the close
flag is consumed and cleared in every call *except* when an accepted open
request ends the call early (then it stays pending for the next call).
An accepted open request (flag set, state not `Opening`/`ManualOpen`) wins
over the close request and forces `Opening` with target fully open, manual
mode set, green and red off, with no further state logic that call (angle,
dwell timer and yellow lamp untouched, close flag unconsumed). In
particular `request_open()` from `Idle` yields, on the next call,
`Opening`, target fully open, green and red both off. -/
theorem claim_C6_remote_flags (g : ServoGate) (now : Int) (i : GateInputs) :
    (g.update now i).remote_open_requested = false ∧
    (¬(g.remote_open_requested = true ∧ g.state ≠ STATE_OPENING ∧
        g.state ≠ STATE_MANUAL_OPEN) →
      (g.update now i).remote_close_requested = false) ∧
    (g.remote_open_requested = true → g.state ≠ STATE_OPENING →
      g.state ≠ STATE_MANUAL_OPEN →
      (g.update now i).state = STATE_OPENING ∧
      (g.update now i).target_angle = SERVO_UP ∧
      (g.update now i).manual_mode = true ∧
      (g.update now i).traffic_light.green = false ∧
      (g.update now i).traffic_light.red = false ∧
      (g.update now i).servo_angle = g.servo_angle ∧
      (g.update now i).clear_start = g.clear_start ∧
      (g.update now i).traffic_light.yellow = g.traffic_light.yellow ∧
      (g.update now i).remote_close_requested = g.remote_close_requested) ∧
    (g.state = STATE_IDLE →
      ((g.request_open).update now i).state = STATE_OPENING ∧
      ((g.request_open).update now i).target_angle = SERVO_UP ∧
      ((g.request_open).update now i).traffic_light.green = false ∧
      ((g.request_open).update now i).traffic_light.red = false) := by
  refine ⟨ServoGate.update_ro_false g now i,
    fun h => ServoGate.update_rc_false g now i h, ?_, ?_⟩
  · intro ho h2 h5
    rw [ServoGate.update_accepted g now i ho h2 h5]
    exact ⟨rfl, rfl, rfl, rfl, rfl, rfl, rfl, rfl, rfl⟩
  · intro hst
    rw [ServoGate.update_accepted (g.request_open) now i rfl
      (by simp [ServoGate.request_open, hst, STATE_IDLE, STATE_OPENING])
      (by simp [ServoGate.request_open, hst, STATE_IDLE, STATE_MANUAL_OPEN])]
    exact ⟨rfl, rfl, rfl, rfl⟩

/-- Witness for the amended C6: the issued-from-`Idle` scenario on the
freshly initialised gate. -/
theorem claim_C6_witness :
    ServoGate.init.state = STATE_IDLE ∧
    (((ServoGate.init.request_open).update 5 inpClear).state = STATE_OPENING ∧
      ((ServoGate.init.request_open).update 5 inpClear).target_angle = SERVO_UP ∧
      ((ServoGate.init.request_open).update 5 inpClear).traffic_light.green = false ∧
      ((ServoGate.init.request_open).update 5 inpClear).traffic_light.red = false) :=
  ⟨by decide,
   (claim_C6_remote_flags ServoGate.init 5 inpClear).2.2.2 (by decide)⟩

/-- **C10.** `request_open()` issued during an automatic opening (state
`Opening`, manual flag unset): the next `update` consumes the open flag
without restarting the opening, but the manual flag set by `request_open`
persists, so the call can only stay in `Opening` or finish in `ManualOpen`
— never `WaitClear` — and whenever the servo steps to the fully-open angle
during that call the state is `ManualOpen`. -/
theorem claim_C10_reopen_during_auto_opening (g : ServoGate) (now : Int)
    (i : GateInputs) (hstate : g.state = STATE_OPENING)
    (_hman : g.manual_mode = false) (hrc : g.remote_close_requested = false) :
    ((g.request_open).update now i).remote_open_requested = false ∧
    ((g.request_open).update now i).manual_mode = true ∧
    ((g.request_open).update now i).state ≠ STATE_WAIT_CLEAR ∧
    (((g.request_open).update now i).state = STATE_OPENING ∨
      ((g.request_open).update now i).state = STATE_MANUAL_OPEN) ∧
    (now - g.last_servo_move ≥ SERVO_INTERVAL →
      ((g.request_open).update now i).servo_angle ≥ SERVO_UP →
      ((g.request_open).update now i).state = STATE_MANUAL_OPEN) := by
  have hacc : ¬((g.request_open).remote_open_requested = true ∧
      (g.request_open).state ≠ STATE_OPENING ∧
      (g.request_open).state ≠ STATE_MANUAL_OPEN) := by
    simp [ServoGate.request_open, hstate]
  rw [ServoGate.update_no_close (g.request_open) now i hacc hrc]
  rw [ServoGate.dispatch_opening _ now i (by exact hstate)]
  refine ⟨(ServoGate.stepOpening_flags _ now).1,
    (ServoGate.stepOpening_flags _ now).2.2, ?_, ?_, ?_⟩
  · rcases ServoGate.stepOpening_states
        { g.request_open with
            is_moving_flag := decide ((g.request_open).state = STATE_OPENING ∨
              (g.request_open).state = STATE_CLOSING),
            remote_open_requested := false } now with hs | hs <;>
      rw [hs] <;>
      simp [ServoGate.request_open, hstate, STATE_OPENING, STATE_WAIT_CLEAR,
        STATE_MANUAL_OPEN]
  · rcases ServoGate.stepOpening_states
        { g.request_open with
            is_moving_flag := decide ((g.request_open).state = STATE_OPENING ∨
              (g.request_open).state = STATE_CLOSING),
            remote_open_requested := false } now with hs | hs <;>
      rw [hs] <;>
      simp [ServoGate.request_open, hstate, STATE_OPENING, STATE_WAIT_CLEAR,
        STATE_MANUAL_OPEN]
  · intro hint hup
    rw [ServoGate.stepOpening_reach _ now (by exact hint) hup]
    simp [ServoGate.request_open]

/-- Witness for C10: two degrees short of fully open, `request_open`, one
servo step later (`now = 30`) the gate finishes in `ManualOpen`. -/
theorem claim_C10_witness :
    (gateOpening.state = STATE_OPENING ∧ gateOpening.manual_mode = false ∧
      gateOpening.remote_close_requested = false) ∧
    (((gateOpening.request_open).update 30 inpClear).remote_open_requested = false ∧
      ((gateOpening.request_open).update 30 inpClear).manual_mode = true ∧
      ((gateOpening.request_open).update 30 inpClear).state ≠ STATE_WAIT_CLEAR ∧
      (((gateOpening.request_open).update 30 inpClear).state = STATE_OPENING ∨
        ((gateOpening.request_open).update 30 inpClear).state = STATE_MANUAL_OPEN) ∧
      ((30 : Int) - gateOpening.last_servo_move ≥ SERVO_INTERVAL →
        ((gateOpening.request_open).update 30 inpClear).servo_angle ≥ SERVO_UP →
        ((gateOpening.request_open).update 30 inpClear).state = STATE_MANUAL_OPEN)) :=
  ⟨⟨by decide, by decide, by decide⟩,
   claim_C10_reopen_during_auto_opening gateOpening 30 inpClear
     (by decide) (by decide) (by decide)⟩

namespace ParkState

/-- Occupied, no gas alarm, distance within the far-threshold-plus-margin
band: the call resets the free-confirmation timer and stays occupied. -/
theorem check_occupied_within (s : ParkState) (cfg : Cfg) (now : Int) (d : ℚ)
    (hg : s.gas_alarm = false) (hp : s.car_parked = true)
    (hd : ¬(d > cfg.ULTRASONIC_MAX_DISTANCE + 2)) :
    check_parking_dist s cfg now d =
      { s with last_distance := d, occupied_timer := 0,
               buzzer := s.buzzer.stop_parking_assist, free_timer := 0 } := by
  simp [check_parking_dist, hg, hp, hd]

/-- Occupied, distance beyond the margin, timer unset: the call stamps the
free-confirmation timer with `now` and (dwell positive) does not flip. -/
theorem check_occupied_start_timer (s : ParkState) (cfg : Cfg) (now : Int)
    (d : ℚ) (hg : s.gas_alarm = false) (hp : s.car_parked = true)
    (hd : d > cfg.ULTRASONIC_MAX_DISTANCE + 2) (hft : s.free_timer = 0)
    (hFC : 0 < cfg.ULTRASONIC_FREE_CONFIRM) :
    check_parking_dist s cfg now d =
      { s with last_distance := d, occupied_timer := 0,
               buzzer := s.buzzer.stop_parking_assist, free_timer := now } := by
  have h0 : ¬(now - now ≥ cfg.ULTRASONIC_FREE_CONFIRM) := by omega
  simp [check_parking_dist, hg, hp, hd, hft, h0]
  omega

/-- Occupied, distance beyond the margin, timer running but dwell not yet
elapsed: nothing flips and the timer is kept. -/
theorem check_occupied_keep_timer (s : ParkState) (cfg : Cfg) (now : Int)
    (d : ℚ) (hg : s.gas_alarm = false) (hp : s.car_parked = true)
    (hd : d > cfg.ULTRASONIC_MAX_DISTANCE + 2) (hft : ¬s.free_timer = 0)
    (hlt : now - s.free_timer < cfg.ULTRASONIC_FREE_CONFIRM) :
    check_parking_dist s cfg now d =
      { s with last_distance := d, occupied_timer := 0,
               buzzer := s.buzzer.stop_parking_assist } := by
  have h0 : ¬(now - s.free_timer ≥ cfg.ULTRASONIC_FREE_CONFIRM) := by omega
  simp [check_parking_dist, hg, hp, hd, hft, h0]

/-- Occupied, distance beyond the margin, dwell elapsed on a running timer:
the spot flips to free. -/
theorem check_occupied_flip (s : ParkState) (cfg : Cfg) (now : Int) (d : ℚ)
    (hg : s.gas_alarm = false) (hp : s.car_parked = true)
    (hd : d > cfg.ULTRASONIC_MAX_DISTANCE + 2) (hft : ¬s.free_timer = 0)
    (hge : now - s.free_timer ≥ cfg.ULTRASONIC_FREE_CONFIRM) :
    check_parking_dist s cfg now d =
      { s with last_distance := d, occupied_timer := 0,
               buzzer := s.buzzer.stop_parking_assist, car_parked := false,
               parking_leds := s.parking_leds.set_free, free_timer := 0 } := by
  simp [check_parking_dist, hg, hp, hd, hft, hge]

/-- Invariant of a run of occupied `check_parking` calls: the gas alarm
stays off, and whenever the free-confirmation timer is set it equals the
timestamp of some earlier call since which every filtered distance has been
beyond the margin. -/
theorem runChecks_occupied_inv (cfg : Cfg) (s : ParkState) (t : Nat → Int)
    (d : Nat → ℚ) (j : Nat) (hFC : 0 < cfg.ULTRASONIC_FREE_CONFIRM)
    (hg : s.gas_alarm = false) (hft : s.free_timer = 0)
    (hpark : ∀ k, k ≤ j → (runChecks s cfg t d k).car_parked = true) :
    ∀ k, k ≤ j →
      (runChecks s cfg t d k).gas_alarm = false ∧
      ((runChecks s cfg t d k).free_timer = 0 ∨
        ∃ i, i < k ∧ (runChecks s cfg t d k).free_timer = t i ∧
          (∀ m, i ≤ m → m < k → d m > cfg.ULTRASONIC_MAX_DISTANCE + 2)) := by
  intro k
  induction k with
  | zero => exact fun _ => ⟨hg, Or.inl hft⟩
  | succ k ih =>
    intro hk1
    have hk : k ≤ j := Nat.le_of_succ_le hk1
    obtain ⟨hgk, hinv⟩ := ih hk
    have hpk : (runChecks s cfg t d k).car_parked = true := hpark k hk
    have hpk1 : (runChecks s cfg t d (k + 1)).car_parked = true := hpark (k + 1) hk1
    have hun : runChecks s cfg t d (k + 1) =
        check_parking_dist (runChecks s cfg t d k) cfg (t k) (d k) := rfl
    by_cases hd : d k > cfg.ULTRASONIC_MAX_DISTANCE + 2
    · by_cases hftk : (runChecks s cfg t d k).free_timer = 0
      · have hstep := check_occupied_start_timer (runChecks s cfg t d k) cfg
          (t k) (d k) hgk hpk hd hftk hFC
        rw [hun, hstep]
        refine ⟨hgk, Or.inr ⟨k, Nat.lt_succ_self k, rfl, ?_⟩⟩
        intro m h1 h2
        have : m = k := by omega
        rw [this]; exact hd
      · rcases hinv with h0 | ⟨i, hik, hfteq, hstreak⟩
        · exact absurd h0 hftk
        by_cases hge : t k - (runChecks s cfg t d k).free_timer ≥
            cfg.ULTRASONIC_FREE_CONFIRM
        · exfalso
          have hstep := check_occupied_flip (runChecks s cfg t d k) cfg
            (t k) (d k) hgk hpk hd hftk hge
          rw [hun, hstep] at hpk1
          simp at hpk1
        · have hstep := check_occupied_keep_timer (runChecks s cfg t d k) cfg
            (t k) (d k) hgk hpk hd hftk (by omega)
          rw [hun, hstep]
          refine ⟨hgk, Or.inr ⟨i, Nat.lt_succ_of_lt hik, hfteq, ?_⟩⟩
          intro m h1 h2
          rcases Nat.lt_or_ge m k with hmk | hmk
          · exact hstreak m h1 hmk
          · have : m = k := by omega
            rw [this]; exact hd
    · have hstep := check_occupied_within (runChecks s cfg t d k) cfg
        (t k) (d k) hgk hpk hd
      rw [hun, hstep]
      exact ⟨hgk, Or.inl rfl⟩

end ParkState

/-- **C7.** Starting from the Occupied state, `check_parking` flips to
Free only after the filtered distance has exceeded
`ULTRASONIC_MAX_DISTANCE + 2` continuously for the full
`ULTRASONIC_FREE_CONFIRM` dwell: (1) any single call whose filtered
distance is within that margin resets the free-confirmation timer to unset
and does not flip; (2) along any sequence of calls that stays Occupied up
to call `j` and is Free after call `j`, there is an earlier call `i` such
that every call from `i` to `j` saw a distance beyond the margin and the
timestamps span at least the dwell.  (On entering Occupied the code always
leaves `free_timer = 0`, which the sequence part assumes.) -/
theorem claim_C7_free_confirmation :
    (∀ (s : ParkState) (cfg : Cfg) (now : Int) (d : ℚ),
      s.car_parked = true → s.gas_alarm = false →
      d ≤ cfg.ULTRASONIC_MAX_DISTANCE + 2 →
      (ParkState.check_parking_dist s cfg now d).free_timer = 0 ∧
      (ParkState.check_parking_dist s cfg now d).car_parked = true) ∧
    (∀ (s : ParkState) (cfg : Cfg) (t : Nat → Int) (d : Nat → ℚ) (j : Nat),
      0 < cfg.ULTRASONIC_FREE_CONFIRM →
      s.gas_alarm = false → s.free_timer = 0 →
      (∀ k, k ≤ j → (ParkState.runChecks s cfg t d k).car_parked = true) →
      (ParkState.runChecks s cfg t d (j + 1)).car_parked = false →
      ∃ i, i ≤ j ∧
        (∀ k, i ≤ k → k ≤ j → d k > cfg.ULTRASONIC_MAX_DISTANCE + 2) ∧
        t j - t i ≥ cfg.ULTRASONIC_FREE_CONFIRM) := by
  constructor
  · intro s cfg now d hp hg hd
    rw [ParkState.check_occupied_within s cfg now d hg hp (by exact not_lt.mpr hd)]
    exact ⟨rfl, hp⟩
  · intro s cfg t d j hFC hg hft hpark hflip
    have hgj : (ParkState.runChecks s cfg t d j).gas_alarm = false :=
      (ParkState.runChecks_occupied_inv cfg s t d j hFC hg hft hpark j le_rfl).1
    have hinv :=
      (ParkState.runChecks_occupied_inv cfg s t d j hFC hg hft hpark j le_rfl).2
    have hpj : (ParkState.runChecks s cfg t d j).car_parked = true :=
      hpark j le_rfl
    have hun : ParkState.runChecks s cfg t d (j + 1) =
        ParkState.check_parking_dist (ParkState.runChecks s cfg t d j) cfg
          (t j) (d j) := rfl
    by_cases hd : d j > cfg.ULTRASONIC_MAX_DISTANCE + 2
    · by_cases hftj : (ParkState.runChecks s cfg t d j).free_timer = 0
      · exfalso
        have hstep := ParkState.check_occupied_start_timer
          (ParkState.runChecks s cfg t d j) cfg (t j) (d j) hgj hpj hd hftj hFC
        rw [hun, hstep] at hflip
        simp [hpj] at hflip
      · by_cases hge : t j - (ParkState.runChecks s cfg t d j).free_timer ≥
            cfg.ULTRASONIC_FREE_CONFIRM
        · rcases hinv with h0 | ⟨i, hij, hfteq, hstreak⟩
          · exact absurd h0 hftj
          refine ⟨i, Nat.le_of_lt hij, ?_, ?_⟩
          · intro k hik hkj
            rcases Nat.lt_or_ge k j with hkj2 | hkj2
            · exact hstreak k hik hkj2
            · have hkeq : k = j := Nat.le_antisymm hkj hkj2
              rw [hkeq]; exact hd
          · rw [hfteq] at hge
            exact hge
        · exfalso
          have hstep := ParkState.check_occupied_keep_timer
            (ParkState.runChecks s cfg t d j) cfg (t j) (d j) hgj hpj hd hftj
            (by omega)
          rw [hun, hstep] at hflip
          simp [hpj] at hflip
    · exfalso
      have hstep := ParkState.check_occupied_within
        (ParkState.runChecks s cfg t d j) cfg (t j) (d j) hgj hpj hd
      rw [hun, hstep] at hflip
      simp [hpj] at hflip

/-- Witness for C7, both parts at the default configuration: a distance of
`5` (within `7 + 2`) resets the timer without flipping; and a two-call
trace at times `5` and `2005` with distance `20` flips exactly at the dwell
and reports the qualifying streak. -/
theorem claim_C7_witness :
    ((parkOccupied.car_parked = true ∧ parkOccupied.gas_alarm = false ∧
        (5 : ℚ) ≤ defaultCfg.ULTRASONIC_MAX_DISTANCE + 2) ∧
      ((ParkState.check_parking_dist parkOccupied defaultCfg 100 5).free_timer = 0 ∧
        (ParkState.check_parking_dist parkOccupied defaultCfg 100 5).car_parked = true)) ∧
    ((0 < defaultCfg.ULTRASONIC_FREE_CONFIRM ∧
        parkOccupied.gas_alarm = false ∧ parkOccupied.free_timer = 0 ∧
        (ParkState.runChecks parkOccupied defaultCfg traceT traceD 2).car_parked = false) ∧
      ∃ i, i ≤ 1 ∧
        (∀ k, i ≤ k → k ≤ 1 →
          traceD k > defaultCfg.ULTRASONIC_MAX_DISTANCE + 2) ∧
        traceT 1 - traceT i ≥ defaultCfg.ULTRASONIC_FREE_CONFIRM) := by
  have e1 : ParkState.runChecks parkOccupied defaultCfg traceT traceD 1 =
      { parkOccupied with
          last_distance := traceD 0, occupied_timer := 0,
          buzzer := parkOccupied.buzzer.stop_parking_assist,
          free_timer := traceT 0 } := by
    have h : ParkState.runChecks parkOccupied defaultCfg traceT traceD 1 =
        ParkState.check_parking_dist parkOccupied defaultCfg (traceT 0)
          (traceD 0) := rfl
    rw [h, ParkState.check_occupied_start_timer parkOccupied defaultCfg
      (traceT 0) (traceD 0) rfl rfl (by norm_num [traceD, defaultCfg]) rfl
      (by norm_num [defaultCfg])]
  have e2 : (ParkState.runChecks parkOccupied defaultCfg traceT traceD 2).car_parked =
      false := by
    have h : ParkState.runChecks parkOccupied defaultCfg traceT traceD 2 =
        ParkState.check_parking_dist
          (ParkState.runChecks parkOccupied defaultCfg traceT traceD 1)
          defaultCfg (traceT 1) (traceD 1) := rfl
    rw [h, e1, ParkState.check_occupied_flip _ defaultCfg (traceT 1) (traceD 1)
      rfl rfl (by norm_num [traceD, defaultCfg]) (by norm_num [traceT])
      (by norm_num [traceT, defaultCfg])]
  refine ⟨⟨⟨rfl, rfl, by norm_num [defaultCfg]⟩,
      claim_C7_free_confirmation.1 parkOccupied defaultCfg 100 5 rfl rfl
        (by norm_num [defaultCfg])⟩,
    ⟨⟨by norm_num [defaultCfg], rfl, rfl, e2⟩,
      claim_C7_free_confirmation.2 parkOccupied defaultCfg traceT traceD 1
        (by norm_num [defaultCfg]) rfl rfl ?park e2⟩⟩
  intro k hk
  interval_cases k
  · rfl
  · rw [e1]
    rfl

/-! ### Sorted-list helpers for the distance filter -/

/-- The head of a `≤`-sorted list is a lower bound for all its members. -/
theorem sorted_head_le (a : ℚ) (rest : List ℚ)
    (hs : (a :: rest).Sorted (· ≤ ·)) : ∀ x ∈ a :: rest, a ≤ x := by
  intro x hx
  rcases List.mem_cons.mp hx with h | h
  · rw [h]
  · exact (List.pairwise_cons.mp hs).1 x h

/-- The last element of a `≤`-sorted list is an upper bound for all its
members. -/
theorem sorted_le_getLast :
    ∀ (l : List ℚ), l.Sorted (· ≤ ·) → ∀ (hne : l ≠ []),
      ∀ x ∈ l, x ≤ l.getLast hne := by
  intro l
  induction l with
  | nil => intro _ hne; exact absurd rfl hne
  | cons a t ih =>
    intro hs hne x hx
    cases t with
    | nil =>
      have hxa : x = a := by simpa using hx
      rw [hxa]
      simp [List.getLast]
    | cons b t2 =>
      have htne : b :: t2 ≠ [] := by simp
      rw [List.getLast_cons htne]
      rcases List.mem_cons.mp hx with h | h
      · rw [h]
        have hb := (List.pairwise_cons.mp hs).1
        exact hb _ (List.getLast_mem htne)
      · exact ih (List.Sorted.of_cons hs) htne x h

/-- **C8.** `_get_filtered_distance` over the 7-sample burst: readings
outside `(0.5, 300)` are discarded; if none survive the previous filtered
value is returned unchanged; if at least 5 survive, a single minimum and a
single maximum are dropped before averaging, and the result is
`0.7 · trimmedAvg + 0.3 · previous`, except on the first call (previous
still the seed sentinel `999`) where the trimmed average is returned
directly. -/
theorem claim_C8_distance_filter (samples : Fin 7 → ℚ) (last : ℚ) :
    (((List.ofFn samples).filter fun x => 0.5 < x ∧ x < 300) = [] →
      ParkState.get_filtered_distance samples last = last) ∧
    (∀ surv, surv = ((List.ofFn samples).filter fun x => 0.5 < x ∧ x < 300) →
      5 ≤ surv.length →
      ∃ mn mx, mn ∈ surv ∧ mx ∈ surv ∧ (∀ x ∈ surv, mn ≤ x) ∧
        (∀ x ∈ surv, x ≤ mx) ∧
        ParkState.get_filtered_distance samples last =
          (if last = 999 then (surv.sum - mn - mx) / ((surv.length : ℚ) - 2)
           else ((surv.sum - mn - mx) / ((surv.length : ℚ) - 2)) * 0.7 +
             last * 0.3)) := by
  constructor
  · intro h
    simp only [ParkState.get_filtered_distance]
    rw [if_pos h]
  · intro surv hsurv hlen
    have hne : surv ≠ [] := by
      intro h
      rw [h] at hlen
      simp at hlen
    have hslen : (List.insertionSort (· ≤ ·) surv).length = surv.length :=
      List.length_insertionSort _ _
    obtain ⟨a, rest, hcons⟩ :
        ∃ a rest, List.insertionSort (· ≤ ·) surv = a :: rest := by
      cases hval : List.insertionSort (· ≤ ·) surv with
      | nil =>
        rw [hval] at hslen
        rw [← hslen] at hlen
        simp at hlen
      | cons a rest => exact ⟨a, rest, rfl⟩
    have hsorted : (a :: rest).Sorted (· ≤ ·) := by
      rw [← hcons]
      exact List.sorted_insertionSort _ _
    have hperm : (a :: rest).Perm surv := by
      rw [← hcons]
      exact List.perm_insertionSort _ _
    have hlencons : rest.length + 1 = surv.length := by
      rw [hcons] at hslen
      simpa using hslen
    have hrestne : rest ≠ [] := by
      intro h
      rw [h] at hlencons
      simp at hlencons
      omega
    have hsplit : rest.dropLast ++ [rest.getLast hrestne] = rest :=
      List.dropLast_append_getLast hrestne
    have hsum : a + rest.sum = surv.sum := by
      have := hperm.sum_eq
      simpa using this
    have hrsum : rest.dropLast.sum + rest.getLast hrestne = rest.sum := by
      conv_rhs => rw [← hsplit]
      simp
    have htrimsum : rest.dropLast.sum =
        surv.sum - a - rest.getLast hrestne := by
      rw [← hsum, ← hrsum]
      ring
    have htrimlen : (rest.dropLast.length : ℚ) = (surv.length : ℚ) - 2 := by
      have h1 : rest.dropLast.length = rest.length - 1 := List.length_dropLast rest
      have h2 : 1 ≤ rest.length := by
        cases hrl : rest.length with
        | zero => exact absurd (List.length_eq_zero.mp hrl) hrestne
        | succ n => omega
      rw [h1, Nat.cast_sub h2, ← hlencons]
      push_cast
      ring
    refine ⟨a, rest.getLast hrestne, ?_, ?_, ?_, ?_, ?_⟩
    · exact hperm.mem_iff.mp (List.mem_cons_self a rest)
    · exact hperm.mem_iff.mp
        (List.mem_cons_of_mem a (List.getLast_mem hrestne))
    · intro x hx
      exact sorted_head_le a rest hsorted x (hperm.mem_iff.mpr hx)
    · intro x hx
      have hb := sorted_le_getLast (a :: rest) hsorted (by simp) x
        (hperm.mem_iff.mpr hx)
      rwa [List.getLast_cons hrestne] at hb
    · simp only [ParkState.get_filtered_distance]
      rw [← hsurv, if_neg hne, hcons]
      have hp5 : (a :: rest).length ≥ 5 := by
        simp only [List.length_cons]
        omega
      rw [if_pos hp5]
      simp only [List.drop_one, List.tail_cons]
      rw [htrimsum, htrimlen]

/-- Witness for C8: on `burst` the filter keeps `[10, 12, 11, 13, 14]`
(5 survivors), and the theorem exhibits the dropped minimum and maximum and
the first-call (sentinel `999`) trimmed average. -/
theorem claim_C8_witness :
    (burstSurv = ((List.ofFn burst).filter fun x => 0.5 < x ∧ x < 300) ∧
      5 ≤ burstSurv.length) ∧
    (∃ mn mx, mn ∈ burstSurv ∧ mx ∈ burstSurv ∧ (∀ x ∈ burstSurv, mn ≤ x) ∧
      (∀ x ∈ burstSurv, x ≤ mx) ∧
      ParkState.get_filtered_distance burst 999 =
        (if (999 : ℚ) = 999 then
          (burstSurv.sum - mn - mx) / ((burstSurv.length : ℚ) - 2)
         else ((burstSurv.sum - mn - mx) / ((burstSurv.length : ℚ) - 2)) * 0.7 +
           (999 : ℚ) * 0.3)) := by
  have h : ((List.ofFn burst).filter fun x => 0.5 < x ∧ x < 300) =
      [10, 12, 11, 13, 14] := by
    have h0 : List.ofFn burst = [10, 1/10, 12, 11, 400, 13, 14] := by
      simp [burst, List.ofFn_succ]
    rw [h0]
    norm_num [List.filter]
  have hs : burstSurv = ((List.ofFn burst).filter fun x => 0.5 < x ∧ x < 300) := by
    rw [h, burstSurv]
  exact ⟨⟨hs, by norm_num [burstSurv]⟩,
    (claim_C8_distance_filter burst 999).2 burstSurv hs
      (by norm_num [burstSurv])⟩

end NextGarage
